import Mathlib

/-!
Shallow embedding of the hardware-keyring call relay of this repository
(`ClientKeyringController` and its helpers in the ui layer).

The embedded source functions are `processKeyringResponse`, `processArgs`,
`ClientKeyringController` (constructor, `getKeyringClassForType`,
`getKeyringInstanceForType`, `updateKeyringData`, `getUpdatedKeyringData`,
`handleMethodCall`), `initializeClientKeyringController` and
`handleHardwareCall`.

Modelling choices:
* JavaScript values that flow through the relay are modelled by `JsVal`.
* A keyring instance is its `type` tag plus its current (serialized) state:
  `deserialize` stores the given data as the state, `serialize` reads it back.
  The dynamic behaviour of an actual keyring method invocation
  (`keyring[method](...args)`) is a parameter `KeyringBehavior`: given the
  keyring type, the method name, the current instance state and the argument
  list it either throws an error value or returns a result together with the
  state the instance holds after the call.
* Thrown JavaScript errors are modelled by `ErrVal`: an optional `message`
  field, an optional `cause` field and the `String(e)` rendering.
* `handleMethodCall` is turned into a state-passing function that returns the
  updated controller, the ordered list of observable events (deserialize,
  invoke, serialize, emitted outcome messages) and, when an exception escapes
  the function uncaught, that escaped error.  The only escape point of the
  embedded code is `updateKeyringData` applied to an unsupported type: there
  the instance lookup yields `undefined` and `keyring.deserialize(data)`
  throws a TypeError, and in the source this happens before the try block of
  `handleMethodCall`, hence outside the catch.
* `document.hasFocus()` is a boolean parameter of `handleHardwareCall`.
-/

/-- JavaScript values flowing through the relay: `undefined`, strings,
in-memory unserialized transaction objects (as built by
`buildUnserializedTxFromHex`, identified by the wire value they were built
from), and signed-transaction objects exposing `serialize()` (identified by
the bytes that `serialize()` returns). -/
inductive JsVal where
  | undef : JsVal
  | str : String → JsVal
  | utx : JsVal → JsVal
  | tx : List Nat → JsVal
deriving DecidableEq, Repr

/-- JavaScript positional access `args[i]`: `undefined` past the end. -/
def jsIndex (args : List JsVal) (i : Nat) : JsVal :=
  args.getD i JsVal.undef

/-- Modelled from the spec: `buildUnserializedTxFromHex`
(ui/helpers/utils/transactions.util, not among the supplied sources) turns the
wire-serialized (hex string) transaction representation into an in-memory
transaction object.  The object is identified by the wire value it was built
from. -/
def buildUnserializedTxFromHex (wire : JsVal) : JsVal :=
  JsVal.utx wire

/-- One hex digit character: 0-9 then lowercase a-f. -/
def hexDigit (n : Nat) : Char :=
  if n < 10 then Char.ofNat (48 + n) else Char.ofNat (87 + n)

/-- Two hex digit characters of one byte. -/
def byteToHex (b : Nat) : List Char :=
  [hexDigit (b / 16 % 16), hexDigit (b % 16)]

/-- `bufferToHex` of the ethereumjs-util library: a 0x-prefixed lowercase
hex rendering of the bytes of a buffer. -/
def bufferToHex (bytes : List Nat) : String :=
  String.mk ('0' :: 'x' :: bytes.flatMap byteToHex)

/-- Whether a value carries a `serialize` method, as tested by the truthiness
of `res?.serialize` in the source; in this value domain exactly the
signed-transaction objects do, and `serialize()` returns their bytes. -/
def serializeBytes : JsVal → Option (List Nat)
  | JsVal.tx bytes => some bytes
  | _ => none

/-- Embeds `processKeyringResponse(res, method)`: for `signTransaction`,
`res?.serialize ? bufferToHex(res.serialize()) : res`; otherwise `res`. -/
def processKeyringResponse (res : JsVal) (method : String) : JsVal :=
  if method = "signTransaction" then
    match serializeBytes res with
    | some bytes => JsVal.str (bufferToHex bytes)
    | none => res
  else res

/-- Embeds `processArgs(args, method)`: for `signTransaction` the list
`[args[0], buildUnserializedTxFromHex(args[1]), ...args.slice(2)]`;
otherwise `args` unchanged. -/
def processArgs (args : List JsVal) (method : String) : List JsVal :=
  if method = "signTransaction" then
    jsIndex args 0 :: buildUnserializedTxFromHex (jsIndex args 1) :: args.drop 2
  else args

/-- A hardware keyring class: its static `type` tag. -/
structure KeyringClass where
  type : String
deriving DecidableEq, Repr

/-- Modelled from the spec: `HARDWARE_KEYRINGS`
(shared/constants/hardware-wallets, not among the supplied sources) is the
fixed, statically-known list of supported hardware keyring classes, one class
per supported type tag; the spec scenario names the `ledger` type. -/
def HARDWARE_KEYRINGS : List KeyringClass :=
  [⟨"trezor"⟩, ⟨"ledger"⟩, ⟨"lattice"⟩, ⟨"qr"⟩]

/-- A keyring instance: the `type` tag of its class plus its current
(serialized) state.  `deserialize(data)` overwrites the state with `data`,
`serialize()` returns it. -/
structure KeyringInstance where
  type : String
  state : JsVal
deriving DecidableEq, Repr

/-- A freshly constructed instance of a keyring class: no state has been
deserialized into it yet. -/
def KeyringClass.newInstance (K : KeyringClass) : KeyringInstance :=
  ⟨K.type, JsVal.undef⟩

/-- Embeds the `ClientKeyringController` object state: the `keyrings` class
list and the `keyringInstances` table built in the constructor. -/
structure ClientKeyringController where
  keyrings : List KeyringClass
  keyringInstances : List KeyringInstance
deriving DecidableEq, Repr

namespace ClientKeyringController

/-- Embeds the constructor: `keyrings := HARDWARE_KEYRINGS` and one fresh
instance per class, `HARDWARE_KEYRINGS.map((KeyringClass) => new KeyringClass())`. -/
def new : ClientKeyringController :=
  { keyrings := HARDWARE_KEYRINGS
    keyringInstances := HARDWARE_KEYRINGS.map KeyringClass.newInstance }

/-- Embeds `getKeyringClassForType`: `this.keyrings.find((kr) => kr.type === type)`,
`none` standing for `undefined`. -/
def getKeyringClassForType (c : ClientKeyringController) (type : String) :
    Option KeyringClass :=
  c.keyrings.find? (fun kr => kr.type = type)

/-- Embeds `getKeyringInstanceForType`:
`this.keyringInstances.find((kr) => kr.type === type)`, `none` standing for
`undefined`. -/
def getKeyringInstanceForType (c : ClientKeyringController) (type : String) :
    Option KeyringInstance :=
  c.keyringInstances.find? (fun kr => kr.type = type)

end ClientKeyringController

/-- `deserialize(data)` on the first instance of the given type: the in-place
mutation performed through the reference returned by `find`. -/
def setFirstState : List KeyringInstance → String → JsVal → List KeyringInstance
  | [], _, _ => []
  | kr :: rest, type, data =>
      if kr.type = type then { kr with state := data } :: rest
      else kr :: setFirstState rest type data

/-- The controller after `keyring.deserialize(data)` mutated the instance that
`getKeyringInstanceForType` found. -/
def ClientKeyringController.withKeyringData (c : ClientKeyringController)
    (type : String) (data : JsVal) : ClientKeyringController :=
  { c with keyringInstances := setFirstState c.keyringInstances type data }

/-- A thrown JavaScript error value: its optional `message` property, its
optional `cause` property, and its `String(e)` rendering. -/
structure ErrVal where
  message : Option String
  cause : Option String
  toStr : String
deriving DecidableEq, Repr

/-- JavaScript `a || b` where `a` is an optional string property: absent and
the empty string are falsy. -/
def jsOrStr : Option String → String → String
  | some s, b => if s = "" then b else s
  | none, b => b

/-- The reject payload of the source, `e.message || e.cause || String(e)`. -/
def errToData (e : ErrVal) : String :=
  jsOrStr e.message (jsOrStr e.cause e.toStr)

/-- The dynamic behaviour of `keyring[method](...args)` for the instance of a
given type: from the type tag, the method name, the current instance state and
the argument list, either a thrown error, or the returned result value paired
with the instance state after the call. -/
def KeyringBehavior : Type :=
  String → String → JsVal → List JsVal → Except ErrVal (JsVal × JsVal)

/-- An outcome message delivered through
`callBackgroundMethod('closeBackgroundPromise', [ ... ])`. -/
structure Outcome where
  promiseId : String
  result : String
  newState : Option JsVal
  response : Option JsVal
  rejectData : Option String
deriving DecidableEq, Repr

/-- A resolve outcome: result `resolve`, data `{ newState, response }`. -/
def resolveOutcome (promiseId : String) (newState response : JsVal) : Outcome :=
  ⟨promiseId, "resolve", some newState, some response, none⟩

/-- A reject outcome: result `reject`, data the error description string. -/
def rejectOutcome (promiseId : String) (data : String) : Outcome :=
  ⟨promiseId, "reject", none, none, some data⟩

/-- Observable events of one `handleMethodCall` run, in order:
`deserialize` is the state overwrite `keyring.deserialize(prevState)`,
`invoke` is `keyring[method](...args)` recording the instance state at the
moment of invocation and the (already transformed) argument list,
`serializeState` is the `keyring.serialize()` read-back of
`getUpdatedKeyringData`, and `emit` is an outcome message sent via
`closeBackgroundPromise`. -/
inductive Event where
  | deserialize : String → JsVal → Event
  | invoke : String → String → JsVal → List JsVal → Event
  | serializeState : String → Event
  | emit : Outcome → Event
deriving DecidableEq, Repr

/-- The outcome messages among a list of events. -/
def emittedOutcomes (events : List Event) : List Outcome :=
  events.filterMap (fun e =>
    match e with
    | Event.emit o => some o
    | _ => none)

/-- The call request shape `{ type, method, args, prevState, promiseId }`. -/
structure CallRequest where
  type : String
  method : String
  args : List JsVal
  prevState : JsVal
  promiseId : String
deriving DecidableEq, Repr

/-- What one `handleMethodCall` run did: the controller afterwards, the events
in order, and the error that escaped the function uncaught, if any. -/
structure CallResult where
  ctrl : ClientKeyringController
  events : List Event
  escaped : Option ErrVal
deriving DecidableEq, Repr

/-- The TypeError thrown by `await keyring.deserialize(data)` inside
`updateKeyringData` when `getKeyringInstanceForType` returned `undefined`. -/
def undefinedDeserializeError : ErrVal :=
  { message := some "Cannot read properties of undefined (reading deserialize)"
    cause := none
    toStr := "TypeError: Cannot read properties of undefined (reading deserialize)" }

/-- Embeds `handleMethodCall({ type, method, args, prevState, promiseId })`.

Source order: `await this.updateKeyringData(type, prevState)` (outside the try
block), then `args = processArgs(_args, method)` and the instance lookup, then
inside `try`: `keyring[method](...args)`, `processKeyringResponse`,
`getUpdatedKeyringData` and the resolve emission; the `catch` emits the reject
outcome built from the caught error.

When the type has no instance, `updateKeyringData` dereferences `undefined`
and the TypeError escapes `handleMethodCall` before any event: the run ends
with `escaped` set and no outcome emitted. -/
def handleMethodCall (beh : KeyringBehavior) (c : ClientKeyringController)
    (r : CallRequest) : CallResult :=
  match c.getKeyringInstanceForType r.type with
  | none =>
      { ctrl := c, events := [], escaped := some undefinedDeserializeError }
  | some _ =>
      let c1 := c.withKeyringData r.type r.prevState
      let args := processArgs r.args r.method
      let keyring := (c1.getKeyringInstanceForType r.type).getD
        ⟨r.type, r.prevState⟩
      match beh r.type r.method keyring.state args with
      | Except.ok (res0, stateAfter) =>
          let res := processKeyringResponse res0 r.method
          let c2 := c1.withKeyringData r.type stateAfter
          let newState := ((c2.getKeyringInstanceForType r.type).map
            KeyringInstance.state).getD JsVal.undef
          { ctrl := c2
            events :=
              [Event.deserialize r.type r.prevState,
               Event.invoke r.type r.method keyring.state args,
               Event.serializeState r.type,
               Event.emit (resolveOutcome r.promiseId newState res)]
            escaped := none }
      | Except.error e =>
          { ctrl := c1
            events :=
              [Event.deserialize r.type r.prevState,
               Event.invoke r.type r.method keyring.state args,
               Event.emit (rejectOutcome r.promiseId (errToData e))]
            escaped := none }

/-- Embeds `initializeClientKeyringController`: when the module-level
singleton already exists the call logs and returns, otherwise it stores a
fresh `ClientKeyringController`. -/
def initializeClientKeyringController :
    Option ClientKeyringController → Option ClientKeyringController
  | some c => some c
  | none => some ClientKeyringController.new

/-- What one `handleHardwareCall` run did: the singleton afterwards, the
events in order, and the error that escaped uncaught, if any. -/
structure RelayResult where
  singleton : Option ClientKeyringController
  events : List Event
  escaped : Option ErrVal
deriving DecidableEq, Repr

/-- Embeds `handleHardwareCall(params)`: initialize the singleton, then
dispatch to `handleMethodCall` only when `document.hasFocus()` holds;
otherwise the request is dropped. -/
def handleHardwareCall (beh : KeyringBehavior)
    (s : Option ClientKeyringController) (focused : Bool)
    (params : CallRequest) : RelayResult :=
  let c := (initializeClientKeyringController s).getD ClientKeyringController.new
  if focused then
    let res := handleMethodCall beh c params
    { singleton := some res.ctrl, events := res.events, escaped := res.escaped }
  else
    { singleton := some c, events := [], escaped := none }

/-- One hex digit character test: 0-9 or lowercase a-f. -/
def isHexDigitChar (ch : Char) : Bool :=
  (48 ≤ ch.toNat && ch.toNat ≤ 57) || (97 ≤ ch.toNat && ch.toNat ≤ 102)

/-- Concrete behaviours used to instantiate theorems: a keyring whose method
invocation returns a plain string result and a fresh state. -/
def behOk : KeyringBehavior :=
  fun _ _ _ _ => Except.ok (JsVal.str "sig", JsVal.str "stateAfter")

/-- A keyring whose method invocation throws Error with message
User rejected. -/
def errUserRejected : ErrVal :=
  { message := some "User rejected", cause := none, toStr := "Error: User rejected" }

/-- A keyring behaviour that always throws `errUserRejected`. -/
def behErr : KeyringBehavior :=
  fun _ _ _ _ => Except.error errUserRejected

/-- A keyring behaviour that returns a signed-transaction object. -/
def behSign : KeyringBehavior :=
  fun _ _ _ _ => Except.ok (JsVal.tx [171, 1], JsVal.str "stateAfter")

theorem find?_setFirstState (type : String) (d : JsVal) (kr : KeyringInstance) :
    ∀ l : List KeyringInstance, l.find? (fun k => k.type = type) = some kr →
      (setFirstState l type d).find? (fun k => k.type = type) =
        some { kr with state := d } := by
  intro l
  induction l with
  | nil => intro h; simp [List.find?] at h
  | cons hd tl ih =>
      intro h
      by_cases hty : hd.type = type
      · simp [List.find?, hty] at h
        subst h
        simp [setFirstState, hty, List.find?]
      · simp [List.find?, hty] at h
        simpa [setFirstState, hty, List.find?] using ih h

theorem getInstance_withKeyringData (c : ClientKeyringController) (type : String)
    (d : JsVal) (kr : KeyringInstance)
    (h : c.getKeyringInstanceForType type = some kr) :
    (c.withKeyringData type d).getKeyringInstanceForType type =
      some { kr with state := d } :=
  find?_setFirstState type d kr c.keyringInstances h

theorem handleMethodCall_ok (beh : KeyringBehavior) (c : ClientKeyringController)
    (r : CallRequest) (kr : KeyringInstance) (res0 stateAfter : JsVal)
    (h : c.getKeyringInstanceForType r.type = some kr)
    (hbeh : beh r.type r.method r.prevState (processArgs r.args r.method) =
      Except.ok (res0, stateAfter)) :
    handleMethodCall beh c r =
      { ctrl := (c.withKeyringData r.type r.prevState).withKeyringData r.type stateAfter
        events :=
          [Event.deserialize r.type r.prevState,
           Event.invoke r.type r.method r.prevState (processArgs r.args r.method),
           Event.serializeState r.type,
           Event.emit (resolveOutcome r.promiseId stateAfter
             (processKeyringResponse res0 r.method))]
        escaped := none } := by
  have h1 := getInstance_withKeyringData c r.type r.prevState kr h
  have h2 := getInstance_withKeyringData (c.withKeyringData r.type r.prevState)
    r.type stateAfter { kr with state := r.prevState } h1
  simp only [handleMethodCall, h, h1, h2, Option.getD_some, hbeh]
  rfl

theorem handleMethodCall_err (beh : KeyringBehavior) (c : ClientKeyringController)
    (r : CallRequest) (kr : KeyringInstance) (e : ErrVal)
    (h : c.getKeyringInstanceForType r.type = some kr)
    (hbeh : beh r.type r.method r.prevState (processArgs r.args r.method) =
      Except.error e) :
    handleMethodCall beh c r =
      { ctrl := c.withKeyringData r.type r.prevState
        events :=
          [Event.deserialize r.type r.prevState,
           Event.invoke r.type r.method r.prevState (processArgs r.args r.method),
           Event.emit (rejectOutcome r.promiseId (errToData e))]
        escaped := none } := by
  have h1 := getInstance_withKeyringData c r.type r.prevState kr h
  simp only [handleMethodCall, h, h1, Option.getD_some, hbeh]

/-- Concrete requests used by counterexamples and witnesses. -/
def reqLedgerSign : CallRequest :=
  ⟨"ledger", "signTransaction", [JsVal.str "m44", JsVal.str "0xc0de"],
    JsVal.str "S", "p1"⟩

/-- A request whose keyring type is not among the supported types. -/
def reqUnknownType : CallRequest :=
  ⟨"onekey", "signTransaction", [JsVal.str "m44", JsVal.str "0xc0de"],
    JsVal.str "S", "p9"⟩

/-- C1 counterexample: the claim quantifies over every call request handled by
`handleMethodCall` and demands exactly one emitted outcome, but a request
whose keyring type is unsupported makes `updateKeyringData` dereference
`undefined` before the try block, the TypeError escapes, and zero outcome
messages are emitted. -/
theorem C1_counterexample :
    (emittedOutcomes (handleMethodCall behOk ClientKeyringController.new
      reqUnknownType).events).length = 0 := by
  decide

/-- C1 (amended): for every call request whose keyring type has an instance in
the relay, `handleMethodCall` emits exactly one outcome message via
`closeBackgroundPromise` — a resolve or a reject, never both and never zero —
and that outcome carries the promiseId of the original request. -/
theorem C1_exactly_one_outcome (beh : KeyringBehavior)
    (c : ClientKeyringController) (r : CallRequest) (kr : KeyringInstance)
    (h : c.getKeyringInstanceForType r.type = some kr) :
    (emittedOutcomes (handleMethodCall beh c r).events).length = 1 ∧
    (emittedOutcomes (handleMethodCall beh c r).events).all
      (fun o => o.promiseId = r.promiseId) = true := by
  cases hbeh : beh r.type r.method r.prevState (processArgs r.args r.method) with
  | ok v =>
      rw [handleMethodCall_ok beh c r kr v.1 v.2 h (by rw [hbeh])]
      simp [emittedOutcomes, resolveOutcome]
  | error e =>
      rw [handleMethodCall_err beh c r kr e h hbeh]
      simp [emittedOutcomes, rejectOutcome]

/-- C1 witness: the amended statement applied to a ledger signTransaction
request handled by a succeeding keyring. -/
theorem C1_exactly_one_outcome_witness :
    (emittedOutcomes (handleMethodCall behOk ClientKeyringController.new
      reqLedgerSign).events).length = 1 ∧
    (emittedOutcomes (handleMethodCall behOk ClientKeyringController.new
      reqLedgerSign).events).all
      (fun o => o.promiseId = reqLedgerSign.promiseId) = true :=
  C1_exactly_one_outcome behOk ClientKeyringController.new reqLedgerSign
    ⟨"ledger", JsVal.undef⟩ (by decide)

/-- C2 counterexample: the claim demands that no exception escapes uncaught
from `handleMethodCall`, but on a request with an unsupported keyring type the
TypeError raised inside `updateKeyringData` — which runs before the try block
— escapes `handleMethodCall` uncaught. -/
theorem C2_counterexample :
    (handleMethodCall behOk ClientKeyringController.new
      reqUnknownType).escaped ≠ none := by
  decide

/-- C2 (amended): every failure thrown by the keyring method invocation itself
is caught at the relay boundary and converted into a reject outcome, and for
such requests no exception escapes `handleMethodCall`; however a failure
before the invocation — an unsupported keyring type, which makes the
state-overwrite step throw — escapes uncaught with no outcome emitted. -/
theorem C2_invocation_failures_caught (beh : KeyringBehavior)
    (c : ClientKeyringController) (r : CallRequest) (kr : KeyringInstance)
    (e : ErrVal)
    (h : c.getKeyringInstanceForType r.type = some kr)
    (hbeh : beh r.type r.method r.prevState (processArgs r.args r.method) =
      Except.error e) :
    (handleMethodCall beh c r).escaped = none ∧
    emittedOutcomes (handleMethodCall beh c r).events =
      [rejectOutcome r.promiseId (errToData e)] := by
  rw [handleMethodCall_err beh c r kr e h hbeh]
  simp [emittedOutcomes]

/-- C2 witness: a ledger signTransaction request whose keyring invocation
throws Error User rejected is caught and turned into the reject outcome. -/
theorem C2_invocation_failures_caught_witness :
    (handleMethodCall behErr ClientKeyringController.new
      reqLedgerSign).escaped = none ∧
    emittedOutcomes (handleMethodCall behErr ClientKeyringController.new
      reqLedgerSign).events =
      [rejectOutcome "p1" "User rejected"] :=
  C2_invocation_failures_caught behErr ClientKeyringController.new reqLedgerSign
    ⟨"ledger", JsVal.undef⟩ errUserRejected (by decide) rfl

/-- C3: whenever the keyring type of the request is supported, the first
observable event of `handleMethodCall` is the state overwrite
`keyring.deserialize(prevState)` and the second is the method invocation,
which sees the instance state equal to `prevState` (the overwrite already
applied) and receives the transformed argument list `processArgs(args,
method)`: the state-overwrite always precedes the argument transformation
and the method execution. -/
theorem C3_overwrite_precedes_invocation (beh : KeyringBehavior)
    (c : ClientKeyringController) (r : CallRequest) (kr : KeyringInstance)
    (h : c.getKeyringInstanceForType r.type = some kr) :
    (handleMethodCall beh c r).events.take 2 =
      [Event.deserialize r.type r.prevState,
       Event.invoke r.type r.method r.prevState
         (processArgs r.args r.method)] := by
  cases hbeh : beh r.type r.method r.prevState (processArgs r.args r.method) with
  | ok v =>
      rw [handleMethodCall_ok beh c r kr v.1 v.2 h (by rw [hbeh])]
      rfl
  | error e =>
      rw [handleMethodCall_err beh c r kr e h hbeh]
      rfl

/-- C3 witness: the event ordering on a concrete ledger signTransaction
request. -/
theorem C3_overwrite_precedes_invocation_witness :
    (handleMethodCall behOk ClientKeyringController.new
      reqLedgerSign).events.take 2 =
      [Event.deserialize "ledger" (JsVal.str "S"),
       Event.invoke "ledger" "signTransaction" (JsVal.str "S")
         (processArgs reqLedgerSign.args reqLedgerSign.method)] :=
  C3_overwrite_precedes_invocation behOk ClientKeyringController.new
    reqLedgerSign ⟨"ledger", JsVal.undef⟩ (by decide)

/-- C5: whenever the keyring method invocation throws an error, no emitted
outcome of that `handleMethodCall` run is a resolve outcome. -/
theorem C5_throw_never_resolves (beh : KeyringBehavior)
    (c : ClientKeyringController) (r : CallRequest) (e : ErrVal)
    (hbeh : beh r.type r.method r.prevState (processArgs r.args r.method) =
      Except.error e) :
    (emittedOutcomes (handleMethodCall beh c r).events).all
      (fun o => o.result ≠ "resolve") = true := by
  cases h : c.getKeyringInstanceForType r.type with
  | none => simp [handleMethodCall, h, emittedOutcomes]
  | some kr =>
      rw [handleMethodCall_err beh c r kr e h hbeh]
      simp [emittedOutcomes, rejectOutcome]

/-- C5 witness: a throwing ledger signTransaction request emits no resolve
outcome. -/
theorem C5_throw_never_resolves_witness :
    (emittedOutcomes (handleMethodCall behErr ClientKeyringController.new
      reqLedgerSign).events).all
      (fun o => o.result ≠ "resolve") = true :=
  C5_throw_never_resolves behErr ClientKeyringController.new reqLedgerSign
    errUserRejected rfl

theorem hexDigit_isHexDigitChar (n : Nat) (h : n < 16) :
    isHexDigitChar (hexDigit n) = true := by
  interval_cases n <;> decide

theorem byteToHex_all_hex (b : Nat) :
    (byteToHex b).all isHexDigitChar = true := by
  simp only [byteToHex, List.all_cons, List.all_nil, Bool.and_true]
  rw [hexDigit_isHexDigitChar _ (Nat.mod_lt _ (by omega)),
    hexDigit_isHexDigitChar _ (Nat.mod_lt _ (by omega))]
  rfl

theorem flatMap_byteToHex_all_hex (bytes : List Nat) :
    (bytes.flatMap byteToHex).all isHexDigitChar = true := by
  induction bytes with
  | nil => rfl
  | cons b rest ih =>
      simp [List.all_append, ih, byteToHex_all_hex b]

/-- C4: for every call request with method signTransaction on a supported
keyring type whose invocation succeeds and returns a signed-transaction
object, the second positional argument passed to the keyring is
`buildUnserializedTxFromHex(args[1])` — the in-memory transaction object
built from the hex wire form — the invocation comes after that
transformation, and the emitted outcome is a resolve whose data is the new
state together with the response `bufferToHex(res.serialize())`, a
0x-prefixed string of hex digit characters. -/
theorem C4_signTransaction_hex_roundtrip (beh : KeyringBehavior)
    (c : ClientKeyringController) (r : CallRequest) (kr : KeyringInstance)
    (bytes : List Nat) (stateAfter : JsVal)
    (hm : r.method = "signTransaction")
    (h : c.getKeyringInstanceForType r.type = some kr)
    (hbeh : beh r.type r.method r.prevState (processArgs r.args r.method) =
      Except.ok (JsVal.tx bytes, stateAfter)) :
    (handleMethodCall beh c r).events =
      [Event.deserialize r.type r.prevState,
       Event.invoke r.type r.method r.prevState
         (jsIndex r.args 0 :: buildUnserializedTxFromHex (jsIndex r.args 1) ::
           r.args.drop 2),
       Event.serializeState r.type,
       Event.emit (resolveOutcome r.promiseId stateAfter
         (JsVal.str (bufferToHex bytes)))] ∧
    (bufferToHex bytes).data = '0' :: 'x' :: bytes.flatMap byteToHex ∧
    (bytes.flatMap byteToHex).all isHexDigitChar = true := by
  refine ⟨?_, rfl, flatMap_byteToHex_all_hex bytes⟩
  rw [handleMethodCall_ok beh c r kr (JsVal.tx bytes) stateAfter h hbeh]
  simp [processArgs, processKeyringResponse, serializeBytes, hm]

/-- C4 witness: the scenario request with a succeeding signing keyring. -/
theorem C4_signTransaction_hex_roundtrip_witness :
    (handleMethodCall behSign ClientKeyringController.new
      reqLedgerSign).events =
      [Event.deserialize "ledger" (JsVal.str "S"),
       Event.invoke "ledger" "signTransaction" (JsVal.str "S")
         (jsIndex reqLedgerSign.args 0 ::
           buildUnserializedTxFromHex (jsIndex reqLedgerSign.args 1) ::
           reqLedgerSign.args.drop 2),
       Event.serializeState "ledger",
       Event.emit (resolveOutcome "p1" (JsVal.str "stateAfter")
         (JsVal.str (bufferToHex [171, 1])))] ∧
    (bufferToHex [171, 1]).data = '0' :: 'x' :: [171, 1].flatMap byteToHex ∧
    ([171, 1].flatMap byteToHex).all isHexDigitChar = true :=
  C4_signTransaction_hex_roundtrip behSign ClientKeyringController.new
    reqLedgerSign ⟨"ledger", JsVal.undef⟩ [171, 1] (JsVal.str "stateAfter")
    rfl (by decide) rfl

/-- C6: whenever the keyring method invocation throws, the emitted reject
outcome's data field follows the preference order of
`e.message || e.cause || String(e)`: the message when present and non-empty,
otherwise the cause when present and non-empty, otherwise the stringified
error. -/
theorem C6_reject_data_preference (beh : KeyringBehavior)
    (c : ClientKeyringController) (r : CallRequest) (kr : KeyringInstance)
    (e : ErrVal)
    (h : c.getKeyringInstanceForType r.type = some kr)
    (hbeh : beh r.type r.method r.prevState (processArgs r.args r.method) =
      Except.error e) :
    (∀ m, e.message = some m → m ≠ "" →
      emittedOutcomes (handleMethodCall beh c r).events =
        [rejectOutcome r.promiseId m]) ∧
    (∀ cs, (e.message = none ∨ e.message = some "") → e.cause = some cs →
      cs ≠ "" →
      emittedOutcomes (handleMethodCall beh c r).events =
        [rejectOutcome r.promiseId cs]) ∧
    ((e.message = none ∨ e.message = some "") →
      (e.cause = none ∨ e.cause = some "") →
      emittedOutcomes (handleMethodCall beh c r).events =
        [rejectOutcome r.promiseId e.toStr]) := by
  have base := handleMethodCall_err beh c r kr e h hbeh
  refine ⟨?_, ?_, ?_⟩
  · intro m hm hne
    rw [base]
    simp [emittedOutcomes, errToData, hm, jsOrStr, hne]
  · intro cs hmsg hcs hne
    rw [base]
    rcases hmsg with hm | hm <;>
      simp [emittedOutcomes, errToData, hm, hcs, jsOrStr, hne]
  · intro hmsg hcause
    rw [base]
    rcases hmsg with hm | hm <;> rcases hcause with hc | hc <;>
      simp [emittedOutcomes, errToData, hm, hc, jsOrStr]

/-- C6 witness: the scenario — a ledger signTransaction invocation throwing
Error with message User rejected yields the reject outcome whose data is
User rejected. -/
theorem C6_reject_data_preference_witness :
    emittedOutcomes (handleMethodCall behErr ClientKeyringController.new
      reqLedgerSign).events =
      [rejectOutcome "p1" "User rejected"] :=
  (C6_reject_data_preference behErr ClientKeyringController.new reqLedgerSign
    ⟨"ledger", JsVal.undef⟩ errUserRejected (by decide) rfl).1
    "User rejected" rfl (by decide)

/-- C7: `handleHardwareCall` dispatches the request to the relay's
`handleMethodCall` if and only if the hosting document holds input focus:
unfocused, the request is dropped — no events (so no keyring state overwrite,
no invocation and no outcome emission) and no escaped error, and an existing
singleton is left unchanged; focused, the run is exactly the
`handleMethodCall` run on the (lazily initialized) singleton. -/
theorem C7_focus_gating (beh : KeyringBehavior)
    (s : Option ClientKeyringController) (c : ClientKeyringController)
    (p : CallRequest) :
    (handleHardwareCall beh s false p).events = [] ∧
    (handleHardwareCall beh s false p).escaped = none ∧
    (handleHardwareCall beh (some c) false p).singleton = some c ∧
    (handleHardwareCall beh s true p).events =
      (handleMethodCall beh
        ((initializeClientKeyringController s).getD ClientKeyringController.new)
        p).events ∧
    (handleHardwareCall beh s true p).singleton =
      some (handleMethodCall beh
        ((initializeClientKeyringController s).getD ClientKeyringController.new)
        p).ctrl ∧
    (handleHardwareCall beh s true p).escaped =
      (handleMethodCall beh
        ((initializeClientKeyringController s).getD ClientKeyringController.new)
        p).escaped := by
  refine ⟨rfl, rfl, rfl, rfl, rfl, rfl⟩

/-- C8: `initializeClientKeyringController` is idempotent — the singleton is
constructed only when absent, any later invocation leaves the existing
singleton unchanged — and the instance table of the freshly constructed
controller is built once in the constructor with exactly one instance per
supported keyring type. -/
theorem C8_initialization_idempotent :
    (∀ s, initializeClientKeyringController
      (initializeClientKeyringController s) =
        initializeClientKeyringController s) ∧
    (∀ c, initializeClientKeyringController (some c) = some c) ∧
    initializeClientKeyringController none =
      some ClientKeyringController.new ∧
    ClientKeyringController.new.keyringInstances.map KeyringInstance.type =
      HARDWARE_KEYRINGS.map KeyringClass.type ∧
    ((HARDWARE_KEYRINGS.map KeyringClass.type).all
      (fun t => (ClientKeyringController.new.keyringInstances.countP
        (fun kr => kr.type = t)) = 1)) = true := by
  refine ⟨?_, fun c => rfl, rfl, by decide, by decide⟩
  intro s
  cases s <;> rfl

/-- C9: for every method name other than signTransaction both relay
transformations are the identity — `processArgs` returns the argument list
unchanged and `processKeyringResponse` returns the raw keyring result
unchanged. -/
theorem C9_non_signTransaction_identity (args : List JsVal) (res : JsVal)
    (method : String) (h : method ≠ "signTransaction") :
    processArgs args method = args ∧
    processKeyringResponse res method = res := by
  simp [processArgs, processKeyringResponse, h]

/-- C9 witness: the identity transformations at the method name
getAccounts. -/
theorem C9_non_signTransaction_identity_witness :
    processArgs [JsVal.str "a", JsVal.str "b"] "getAccounts" =
      [JsVal.str "a", JsVal.str "b"] ∧
    processKeyringResponse (JsVal.str "raw") "getAccounts" =
      JsVal.str "raw" :=
  C9_non_signTransaction_identity [JsVal.str "a", JsVal.str "b"]
    (JsVal.str "raw") "getAccounts" (by decide)

/-- C10: for every type string matched by no keyring class and no keyring
instance of the controller, `getKeyringClassForType` and
`getKeyringInstanceForType` return none — the embedding of `undefined`, the
value `Array.prototype.find` yields without throwing — so the lookup itself
never fails and an unsupported type can only fail later, where the undefined
result is used. -/
theorem C10_unsupported_type_lookup (c : ClientKeyringController) (t : String)
    (h1 : ∀ K ∈ c.keyrings, K.type ≠ t)
    (h2 : ∀ kr ∈ c.keyringInstances, kr.type ≠ t) :
    c.getKeyringClassForType t = none ∧
    c.getKeyringInstanceForType t = none := by
  constructor
  · rw [ClientKeyringController.getKeyringClassForType, List.find?_eq_none]
    intro K hK
    simpa using h1 K hK
  · rw [ClientKeyringController.getKeyringInstanceForType, List.find?_eq_none]
    intro kr hkr
    simpa using h2 kr hkr

/-- C10 witness: lookups of a type outside the fixed supported set on the
freshly constructed controller. -/
theorem C10_unsupported_type_lookup_witness :
    ClientKeyringController.new.getKeyringClassForType "onekey" = none ∧
    ClientKeyringController.new.getKeyringInstanceForType "onekey" = none :=
  C10_unsupported_type_lookup ClientKeyringController.new "onekey"
    (by decide) (by decide)
